import Mathlib

/-!
Verification of the message-processing core of the Meshtastic MQTT time
service (`src/service/mqtt_time_service.py`).

The embedding models the `on_message` callback (lines 83-168) and the helper
`hex_node_id_to_decimal` (lines 60-62) as pure Lean functions.

Modelling decisions, each tied to the source:
* The result of `json.loads(message.payload.decode("utf-8"))` under the
  `try/except (json.JSONDecodeError, UnicodeDecodeError)` at lines 110-114 is
  modelled by `LoadResult`: either `decodeError` (one of the two caught
  exception types was raised, i.e. the bytes are not valid UTF-8 or not
  well-formed JSON) or `value v` with `v` the parsed JSON value.  JSON values
  are modelled by `JVal`; numeric JSON values are modelled as integers
  (`Int`), which covers every payload the claims concern.
* `current_time_str()` (lines 53-57, wall clock + pytz formatting) is
  real-time library behaviour; its output string is passed to the handler as
  the parameter `timeStr`.
* Each `return` site of `on_message`, plus the two statements that can raise
  an uncaught exception (`data.get` on a non-dict at line 116 raises
  `AttributeError`; `hex(sender_decimal)` on a non-integer at line 134 raises
  `TypeError`), is mapped to one `Exit` constructor, so the outcome records
  which path was taken and hence which log level (if any) was emitted.
* `client.publish(downlink_topic, payload_json, qos=0)` at line 167 is
  recorded as a `(topic, response)` pair; the response is kept as the JSON
  value built at lines 156-161 (its `json.dumps` serialisation is injective
  on the JSON level, so claims about the published JSON payload are stated on
  the value).
* Python `int(s, 16)` (used by `hex_node_id_to_decimal`) is modelled with its
  CPython grammar for ASCII input: surrounding ASCII whitespace, an optional
  sign, an optional `0x`/`0X` prefix, and hex digits with single underscores
  between digits (or one directly after the prefix).  Non-ASCII digit forms
  and non-ASCII whitespace accepted by CPython are outside the model.
* Python `str.lower()` is modelled on the ASCII range (the only case-mapping
  the claims exercise); `str.split("/")`, `str.startswith("!")`,
  `str.lstrip("!")`, `dict.get` and the substring operator `in` are modelled
  exactly.
-/

/-- A JSON value, as produced by `json.loads`.  Numbers are modelled as
integers (`from` fields are integral node ids); `obj` keeps the key/value
pairs in textual order, and lookup takes the last binding of a duplicated
key, as `json.loads` does when building a Python dict. -/
inductive JVal where
  | null
  | bool (b : Bool)
  | num (n : Int)
  | str (s : String)
  | arr (elems : List JVal)
  | obj (fields : List (String × JVal))

/-- Result of `json.loads(message.payload.decode("utf-8"))` under the
`try/except` at lines 110-114: `decodeError` when the payload bytes are not
valid UTF-8 (`UnicodeDecodeError`) or not well-formed JSON
(`json.JSONDecodeError`); otherwise the parsed JSON value. -/
inductive LoadResult where
  | decodeError
  | value (v : JVal)

/-- Which control-flow exit `on_message` took.  Each constructor corresponds
to one source location:
* `tooFewParts`      - line 97, silent `return`;
* `mqttChannel`      - line 105, silent `return`;
* `decodeFail`       - line 114, `return` after `log.debug`;
* `attrError`        - line 116, `data.get` on a non-dict raises an uncaught
                       `AttributeError` (not inside the `try` block);
* `notText`          - line 121, silent `return`;
* `noTrigger`        - line 125, silent `return`;
* `missingFrom`      - line 130, `return` after `log.warning`;
* `typeError`        - line 134, `hex(sender_decimal)` on a non-integer
                       raises an uncaught `TypeError`;
* `badGatewayFormat` - line 147, `return` after `log.warning`;
* `badGatewayHex`    - line 153, `return` after `log.error` (the
                       `ValueError` from `int` is caught at line 151);
* `publishedOK`      - line 168, normal completion after the publish. -/
inductive Exit where
  | tooFewParts
  | mqttChannel
  | decodeFail
  | attrError
  | notText
  | noTrigger
  | missingFrom
  | typeError
  | badGatewayFormat
  | badGatewayHex
  | publishedOK
deriving DecidableEq

/-- `true` exactly for the exits where an exception escapes the callback
(nothing in `on_message` catches `AttributeError` or `TypeError`). -/
def Exit.raisesException : Exit → Bool
  | Exit.attrError => true
  | Exit.typeError => true
  | _ => false

/-- What one invocation of `on_message` did: the list of
`client.publish(topic, payload, qos=0)` calls it performed (each recorded as
the topic string and the JSON value serialised into the payload), and the
exit it took. -/
structure Outcome where
  publishes : List (String × JVal)
  exit : Exit

/-- The environment-derived configuration consumed by the core
(lines 38-40): the raw `TIME_TRIGGER` value (lowercased at line 39 before
use), the unused `BOT_NODE_ID` override, and the `TIMEZONE` name (consumed
only by `current_time_str`, whose output is the `timeStr` parameter). -/
structure Config where
  timeTriggerEnv : String
  botNodeId : String
  timezone : String

/-- ASCII case-lowering of one character, the fragment of `str.lower()` the
service exercises. -/
def lowerChar (c : Char) : Char :=
  if 65 ≤ c.toNat ∧ c.toNat ≤ 90 then Char.ofNat (c.toNat + 32) else c

/-- `s.lower()` on the ASCII range. -/
def pyLower (s : String) : String := String.mk (s.data.map lowerChar)

/-- Line 39: `TIME_TRIGGER = os.getenv("TIME_TRIGGER", "!time").lower()`. -/
def TIME_TRIGGER (cfg : Config) : String := pyLower cfg.timeTriggerEnv

/-- Python's substring operator `needle in haystack`: `true` iff `needle`
occurs contiguously in `haystack` (the empty needle always occurs). -/
def pyIn (needle : List Char) : List Char → Bool
  | [] => needle.isEmpty
  | c :: rest => needle.isPrefixOf (c :: rest) || pyIn needle rest

/-- The configuration with every environment variable left at its default
(lines 38-40): trigger `"!time"`, no bot-node override, timezone `"UTC"`. -/
def defaultConfig : Config := ⟨"!time", "", "UTC"⟩

/-- Accumulator form of Python `str.split(sep)` for a one-character
separator: splits at every occurrence, keeping empty segments. -/
def splitOnCharAux (sep : Char) : List Char → List Char → List (List Char)
  | [], acc => [acc.reverse]
  | c :: rest, acc =>
    if c = sep then acc.reverse :: splitOnCharAux sep rest []
    else splitOnCharAux sep rest (c :: acc)

/-- Line 95: `topic.split("/")`. -/
def pySplit (s : String) (sep : Char) : List String :=
  (splitOnCharAux sep s.data []).map String.mk

/-- First binding of a key in an association list. -/
def lookupStr (k : String) : List (String × JVal) → Option JVal
  | [] => none
  | (k2, v) :: rest => if k = k2 then some v else lookupStr k rest

/-- `dict.get(k)` on the dict `json.loads` builds from `fields`: the last
binding of `k` wins, absence gives `none` (Python `None`). -/
def dictGet (fields : List (String × JVal)) (k : String) : Option JVal :=
  lookupStr k fields.reverse

/-- `dict.get(k, d)` (lines 116-117).  Note a present key bound to JSON
`null` yields Python `None`, not the default; `JVal.null` models that. -/
def dictGetD (fields : List (String × JVal)) (k : String) (d : JVal) : JVal :=
  (dictGet fields k).getD d

/-- Line 127: `data.get("from")`.  Python `None` results both when the key is
absent and when it is bound to JSON `null`, so both are mapped to `none`. -/
def getFromField (fields : List (String × JVal)) : Option JVal :=
  match dictGet fields "from" with
  | some JVal.null => none
  | r => r

/-- Whether `hex(x)` succeeds on the Python value decoded from this JSON
value: it does exactly on `int` (JSON integral numbers) and `bool` (a Python
`int` subtype); on anything else it raises `TypeError`. -/
def isIntLike : JVal → Bool
  | JVal.num _ => true
  | JVal.bool _ => true
  | _ => false

/-- Line 145: `gateway_hex.startswith("!")`. -/
def startsWithBang (s : String) : Bool :=
  match s.data with
  | [] => false
  | c :: _ => c = '!'

/-- ASCII whitespace stripped by Python `int()` around its argument. -/
def isPyWhitespace (c : Char) : Bool :=
  c.toNat == 32 || c.toNat == 9 || c.toNat == 10 || c.toNat == 13 ||
  c.toNat == 11 || c.toNat == 12

/-- Value of one hexadecimal digit character (`0-9`, `a-f`, `A-F`). -/
def hexDigitVal (c : Char) : Option Nat :=
  if 48 ≤ c.toNat ∧ c.toNat ≤ 57 then some (c.toNat - 48)
  else if 97 ≤ c.toNat ∧ c.toNat ≤ 102 then some (c.toNat - 87)
  else if 65 ≤ c.toNat ∧ c.toNat ≤ 70 then some (c.toNat - 55)
  else none

/-- Total version of `hexDigitVal` (defaulting to 0), used to state values
of digit strings. -/
def hexDigitValD (c : Char) : Nat := (hexDigitVal c).getD 0

/-- Digits of a base-16 numeral after the first digit, allowing a single
underscore between two digits, as Python `int(_, 16)` does (a trailing,
doubled, or digit-less underscore is an error). -/
def hexCore : List Char → Nat → Option Nat
  | [], a => some a
  | [c], a => (hexDigitVal c).elim none (fun d => some (16 * a + d))
  | c :: c2 :: rest, a =>
    (hexDigitVal c).elim
      (if c = '_' then
        (hexDigitVal c2).elim none (fun d => hexCore rest (16 * a + d))
      else none)
      (fun d => hexCore (c2 :: rest) (16 * a + d))

/-- A base-16 numeral must start with a digit (no leading underscore). -/
def hexStart : List Char → Option Nat
  | [] => none
  | c :: rest =>
    match hexDigitVal c with
    | some d => hexCore rest d
    | none => none

/-- After a `0x`/`0X` base marker Python permits one underscore before the
first digit. -/
def hexAfterBase : List Char → Option Nat
  | [] => none
  | c :: rest => if c = '_' then hexStart rest else hexStart (c :: rest)

/-- The unsigned part of Python `int(s, 16)`: an optional `0x`/`0X` prefix
followed by the digits. -/
def parseHexBody (l : List Char) : Option Nat :=
  match l with
  | c0 :: c1 :: rest =>
    if c0 = '0' ∧ (c1 = 'x' ∨ c1 = 'X') then hexAfterBase rest
    else hexStart (c0 :: c1 :: rest)
  | _ => hexStart l

/-- Strip leading and trailing ASCII whitespace. -/
def stripWs (l : List Char) : List Char :=
  ((l.dropWhile isPyWhitespace).reverse.dropWhile isPyWhitespace).reverse

/-- Python `int(s, 16)` on its ASCII grammar: whitespace-stripped, an
optional single sign, then the base-16 body; `none` models the `ValueError`
raised on anything else. -/
def pyIntHexChars (l : List Char) : Option Int :=
  match stripWs l with
  | [] => none
  | c :: rest =>
    if c = '+' then (parseHexBody rest).map (fun n => (n : Int))
    else if c = '-' then (parseHexBody rest).map (fun n => -(n : Int))
    else (parseHexBody (c :: rest)).map (fun n => (n : Int))

/-- Lines 60-62: `int(hex_id.lstrip("!"), 16)`; `lstrip` removes every
leading `!`.  `none` models the `ValueError` (caught by the caller at
line 151). -/
def hex_node_id_to_decimal (s : String) : Option Int :=
  pyIntHexChars (s.data.dropWhile (fun c => c = '!'))

/-- Lowercase hexadecimal digit character for a value below 16 (the digit
alphabet of Python `hex`). -/
def toHexChar (d : Nat) : Char :=
  if d < 10 then Char.ofNat (48 + d) else Char.ofNat (87 + d)

/-- Fuel-driven big-endian base-16 digit emitter (`fuel` bounds the number of
division steps; `fuel = n` always suffices). -/
def natToHexAuxF : Nat → Nat → List Char → List Char
  | 0, _, acc => acc
  | fuel + 1, n, acc =>
    if n = 0 then acc
    else natToHexAuxF fuel (n / 16) (toHexChar (n % 16) :: acc)

/-- Big-endian lowercase base-16 digits of `n` (the digits of Python
`hex(n)` without the `0x` prefix). -/
def natToHexDigits (n : Nat) : List Char :=
  if n = 0 then ['0'] else natToHexAuxF n n []

/-- Modelled from the spec: the round-trip property of §8 applies `hexOf`,
rendering a decimal node id back in the topic's identifier notation, which
the glossary fixes as `!` followed by the hexadecimal form (the source has no
such function; only `hex_node_id_to_decimal`, the other direction, is in
src). -/
def hexOfNodeId (n : Nat) : String := String.mk ('!' :: natToHexDigits n)

/-- `shiftIn a n` is `a` shifted left by one base-16 digit position for each
digit of `n`, with the digits of `n` shifted in (so `shiftIn 0 n = n`).
Specification device for the digit emitter; not part of the source model. -/
def shiftIn (a : Nat) (n : Nat) : Nat :=
  if h : n = 0 then a else shiftIn a (n / 16) * 16 + n % 16
termination_by n
decreasing_by exact Nat.div_lt_self (Nat.pos_of_ne_zero h) (by decide)

/-- Value of a big-endian list of hex digit characters, accumulated onto
`a`. -/
def valAux (l : List Char) (a : Nat) : Nat :=
  l.foldl (fun x c => 16 * x + hexDigitValD c) a

/-- The `on_message` callback, lines 83-168.  Arguments: the configuration,
the string `current_time_str()` returns during this invocation, the inbound
`message.topic`, and the `json.loads` outcome for `message.payload`
(see `LoadResult`).  The body follows the source line by line. -/
def on_message (cfg : Config) (timeStr : String) (topic : String)
    (pl : LoadResult) : Outcome :=
  -- line 95-97: parts = topic.split("/"); if len(parts) < 6: return
  if (pySplit topic '/').length < 6 then ⟨[], Exit.tooFewParts⟩
  -- lines 99-105: channel = parts[4]; if channel == "mqtt": return
  else if (pySplit topic '/').getD 4 "" = "mqtt" then ⟨[], Exit.mqttChannel⟩
  else
    -- lines 110-114: data = json.loads(message.payload.decode("utf-8"))
    match pl with
    | LoadResult.decodeError => ⟨[], Exit.decodeFail⟩
    | LoadResult.value data =>
      match data with
      | JVal.obj fields =>
        -- lines 116-117: msg_type = data.get("type", "");
        --                payload  = data.get("payload", "")
        -- line 120: if msg_type != "text" or not isinstance(payload, str)
        match dictGetD fields "type" (JVal.str ""),
              dictGetD fields "payload" (JVal.str "") with
        | JVal.str "text", JVal.str ptext =>
          -- line 124: if TIME_TRIGGER not in payload.lower(): return
          if pyIn (TIME_TRIGGER cfg).data (pyLower ptext).data then
            -- lines 127-130: sender_decimal = data.get("from");
            --                if sender_decimal is None: return
            match getFromField fields with
            | none => ⟨[], Exit.missingFrom⟩
            | some sv =>
              -- line 134: hex(sender_decimal) in the log call raises
              -- TypeError when the value is not an int/bool
              if isIntLike sv then
                -- lines 145-147: if not gateway_hex.startswith("!"): return
                if startsWithBang ((pySplit topic '/').getD 5 "") then
                  -- lines 149-153: gateway_decimal =
                  --   hex_node_id_to_decimal(gateway_hex), ValueError caught
                  match hex_node_id_to_decimal
                      ((pySplit topic '/').getD 5 "") with
                  | none => ⟨[], Exit.badGatewayHex⟩
                  | some g =>
                    -- lines 155-167: build response and publish it on
                    -- f"msh/{region}/2/json/mqtt/"
                    ⟨[("msh/" ++ (pySplit topic '/').getD 1 "" ++
                         "/2/json/mqtt/",
                       JVal.obj [("from", JVal.num g),
                                 ("type", JVal.str "sendtext"),
                                 ("payload",
                                  JVal.str ("Current time: " ++ timeStr)),
                                 ("to", sv)])],
                      Exit.publishedOK⟩
                else ⟨[], Exit.badGatewayFormat⟩
              else ⟨[], Exit.typeError⟩
          else ⟨[], Exit.noTrigger⟩
        | _, _ => ⟨[], Exit.notText⟩
      | _ => ⟨[], Exit.attrError⟩

/-! Lemmas about hexadecimal digits and Python `int(_, 16)`. -/

theorem valAux_nil (a : Nat) : valAux [] a = a := rfl

theorem valAux_cons (c : Char) (l : List Char) (a : Nat) :
    valAux (c :: l) a = valAux l (16 * a + hexDigitValD c) := rfl

theorem hexDigitVal_toHexChar (d : Nat) (h : d < 16) :
    hexDigitVal (toHexChar d) = some d := by
  interval_cases d <;> rfl

theorem hexDigit_toNat_range (c : Char) (h : (hexDigitVal c).isSome = true) :
    (48 ≤ c.toNat ∧ c.toNat ≤ 57) ∨ (97 ≤ c.toNat ∧ c.toNat ≤ 102) ∨
    (65 ≤ c.toNat ∧ c.toNat ≤ 70) := by
  unfold hexDigitVal at h
  split_ifs at h with h1 h2 h3
  · exact Or.inl h1
  · exact Or.inr (Or.inl h2)
  · exact Or.inr (Or.inr h3)
  · simp at h

theorem hexDigit_not_ws (c : Char) (h : (hexDigitVal c).isSome = true) :
    isPyWhitespace c = false := by
  have hr := hexDigit_toNat_range c h
  unfold isPyWhitespace
  simp only [Bool.or_eq_false_iff, beq_eq_false_iff_ne, ne_eq]
  omega

theorem hexDigit_ne (c : Char) (h : (hexDigitVal c).isSome = true)
    (x : Char) (hx : hexDigitVal x = none) : c ≠ x := by
  intro e
  rw [e, hx] at h
  simp at h

theorem dropWhile_ws_digits (l : List Char)
    (hall : ∀ c ∈ l, (hexDigitVal c).isSome = true) :
    l.dropWhile isPyWhitespace = l := by
  cases l with
  | nil => rfl
  | cons c rest =>
    rw [List.dropWhile_cons,
      hexDigit_not_ws c (hall c (List.mem_cons_self c rest))]
    simp

theorem stripWs_digits (l : List Char)
    (hall : ∀ c ∈ l, (hexDigitVal c).isSome = true) : stripWs l = l := by
  unfold stripWs
  rw [dropWhile_ws_digits l hall,
    dropWhile_ws_digits l.reverse (fun c hc => hall c (List.mem_reverse.mp hc)),
    List.reverse_reverse]

theorem hexCore_cons_digit (c : Char) (rest : List Char) (a d : Nat)
    (hd : hexDigitVal c = some d) :
    hexCore (c :: rest) a = hexCore rest (16 * a + d) := by
  cases rest with
  | nil => simp only [hexCore, hd]; rfl
  | cons c2 rest2 => simp only [hexCore, hd]; rfl

theorem hexCore_digits (l : List Char) :
    ∀ a, (∀ c ∈ l, (hexDigitVal c).isSome = true) →
      hexCore l a = some (valAux l a) := by
  induction l with
  | nil => intro a _; rfl
  | cons c rest ih =>
    intro a hall
    obtain ⟨d, hd⟩ :=
      Option.isSome_iff_exists.mp (hall c (List.mem_cons_self c rest))
    rw [hexCore_cons_digit c rest a d hd,
      ih (16 * a + d) (fun x hx => hall x (List.mem_cons_of_mem c hx)),
      valAux_cons]
    simp [hexDigitValD, hd]

theorem hexStart_digits (c : Char) (rest : List Char)
    (hall : ∀ x ∈ c :: rest, (hexDigitVal x).isSome = true) :
    hexStart (c :: rest) = some (valAux (c :: rest) 0) := by
  obtain ⟨d, hd⟩ :=
    Option.isSome_iff_exists.mp (hall c (List.mem_cons_self c rest))
  simp only [hexStart, hd]
  rw [hexCore_digits rest d (fun x hx => hall x (List.mem_cons_of_mem c hx)),
    valAux_cons]
  simp [hexDigitValD, hd]

theorem parseHexBody_digits (l : List Char)
    (hall : ∀ c ∈ l, (hexDigitVal c).isSome = true) :
    parseHexBody l = hexStart l := by
  rcases l with _ | ⟨c0, _ | ⟨c1, rest⟩⟩
  · rfl
  · rfl
  · have h1 := hall c1 (by simp)
    show (if c0 = '0' ∧ (c1 = 'x' ∨ c1 = 'X') then hexAfterBase rest
      else hexStart (c0 :: c1 :: rest)) = hexStart (c0 :: c1 :: rest)
    rw [if_neg]
    rintro ⟨-, h | h⟩
    · exact hexDigit_ne c1 h1 'x' (by decide) h
    · exact hexDigit_ne c1 h1 'X' (by decide) h

theorem pyIntHexChars_digits (c : Char) (rest : List Char)
    (hall : ∀ x ∈ c :: rest, (hexDigitVal x).isSome = true) :
    pyIntHexChars (c :: rest) = some (Int.ofNat (valAux (c :: rest) 0)) := by
  have hc := hall c (List.mem_cons_self c rest)
  unfold pyIntHexChars
  rw [stripWs_digits _ hall]
  show (if c = '+' then (parseHexBody rest).map (fun n => (n : Int))
    else if c = '-' then (parseHexBody rest).map (fun n => -(n : Int))
    else (parseHexBody (c :: rest)).map (fun n => (n : Int))) =
    some (Int.ofNat (valAux (c :: rest) 0))
  rw [if_neg (hexDigit_ne c hc '+' (by decide)),
    if_neg (hexDigit_ne c hc '-' (by decide)),
    parseHexBody_digits _ hall, hexStart_digits c rest hall]
  rfl

/-! Lemmas about the base-16 digit emitter and the round trip. -/

theorem natToHexAuxF_digits : ∀ (fuel n : Nat) (acc : List Char),
    (∀ c ∈ acc, (hexDigitVal c).isSome = true) →
    ∀ c ∈ natToHexAuxF fuel n acc, (hexDigitVal c).isSome = true := by
  intro fuel
  induction fuel with
  | zero => intro n acc hacc; exact hacc
  | succ fuel ih =>
    intro n acc hacc
    by_cases hn : n = 0
    · rw [natToHexAuxF, if_pos hn]; exact hacc
    · rw [natToHexAuxF, if_neg hn]
      apply ih
      intro c hc
      rcases List.mem_cons.mp hc with h | h
      · subst h
        rw [hexDigitVal_toHexChar _ (Nat.mod_lt _ (by decide))]
        rfl
      · exact hacc c h

theorem natToHexAuxF_append : ∀ (fuel n : Nat) (acc : List Char),
    ∃ pre, natToHexAuxF fuel n acc = pre ++ acc := by
  intro fuel
  induction fuel with
  | zero => intro n acc; exact ⟨[], rfl⟩
  | succ fuel ih =>
    intro n acc
    by_cases hn : n = 0
    · refine ⟨[], ?_⟩
      rw [natToHexAuxF, if_pos hn]
      rfl
    · obtain ⟨pre, hp⟩ := ih (n / 16) (toHexChar (n % 16) :: acc)
      refine ⟨pre ++ [toHexChar (n % 16)], ?_⟩
      rw [natToHexAuxF, if_neg hn, hp, List.append_assoc]
      rfl

theorem shiftIn_zero (n : Nat) : shiftIn 0 n = n := by
  induction n using Nat.strong_induction_on with
  | _ n ih =>
    rw [shiftIn]
    split
    · omega
    · rename_i h
      rw [ih (n / 16) (Nat.div_lt_self (Nat.pos_of_ne_zero h) (by decide))]
      omega

theorem valAux_natToHexAuxF : ∀ (fuel n : Nat) (acc : List Char) (a : Nat),
    n ≤ fuel →
    valAux (natToHexAuxF fuel n acc) a = valAux acc (shiftIn a n) := by
  intro fuel
  induction fuel with
  | zero =>
    intro n acc a hn
    have h0 : n = 0 := Nat.le_zero.mp hn
    subst h0
    rw [shiftIn]
    simp [natToHexAuxF]
  | succ fuel ih =>
    intro n acc a hn
    by_cases h0 : n = 0
    · subst h0
      rw [natToHexAuxF, if_pos rfl, shiftIn]
      simp
    · rw [natToHexAuxF, if_neg h0]
      have hdiv : n / 16 ≤ fuel := by
        have := Nat.div_lt_self (Nat.pos_of_ne_zero h0) (show 1 < 16 by decide)
        omega
      rw [ih (n / 16) (toHexChar (n % 16) :: acc) a hdiv, valAux_cons]
      have hs : shiftIn a n = shiftIn a (n / 16) * 16 + n % 16 := by
        rw [shiftIn]
        exact dif_neg h0
      rw [hs]
      simp [hexDigitValD, hexDigitVal_toHexChar _ (Nat.mod_lt _ (by decide))]
      ring_nf

theorem natToHexDigits_digits (n : Nat) :
    ∀ c ∈ natToHexDigits n, (hexDigitVal c).isSome = true := by
  unfold natToHexDigits
  split
  · intro c hc
    rw [List.mem_singleton] at hc
    subst hc
    decide
  · exact natToHexAuxF_digits n n [] (by simp)

theorem natToHexDigits_ne_nil (n : Nat) : natToHexDigits n ≠ [] := by
  unfold natToHexDigits
  split
  · simp
  · rename_i h0
    obtain ⟨f, hf⟩ := Nat.exists_eq_succ_of_ne_zero h0
    rw [hf, natToHexAuxF, if_neg (Nat.succ_ne_zero f)]
    obtain ⟨pre, hp⟩ :=
      natToHexAuxF_append f ((f + 1) / 16) [toHexChar ((f + 1) % 16)]
    rw [hp]
    simp

theorem valAux_natToHexDigits (n : Nat) : valAux (natToHexDigits n) 0 = n := by
  unfold natToHexDigits
  split
  · rename_i h
    subst h
    decide
  · rw [valAux_natToHexAuxF n n [] 0 (Nat.le_refl n), valAux_nil, shiftIn_zero]

theorem hex_node_id_digits (c : Char) (rest : List Char)
    (hall : ∀ x ∈ c :: rest, (hexDigitVal x).isSome = true) :
    hex_node_id_to_decimal (String.mk ('!' :: c :: rest)) =
      some (Int.ofNat (valAux (c :: rest) 0)) := by
  have hcb : c ≠ '!' :=
    hexDigit_ne c (hall c (List.mem_cons_self c rest)) '!' (by decide)
  unfold hex_node_id_to_decimal
  have h1 : (String.mk ('!' :: c :: rest)).data = '!' :: c :: rest := rfl
  rw [h1]
  simp [List.dropWhile_cons, hcb]
  exact pyIntHexChars_digits c rest hall

/-- C8: round-trip stability of the hex/decimal node-id conversion.  For
every valid hex gateway identifier (the character `!` followed by a nonempty
string of hexadecimal digits), `hex_node_id_to_decimal` succeeds, and
re-rendering the resulting decimal id in the `!`-prefixed hexadecimal
identifier notation (`hexOfNodeId`, modelled from the spec) and converting
again yields the same decimal value: decimalOf(hexOf(decimalOf h)) =
decimalOf h. -/
theorem c8_hex_roundtrip (ds : List Char) (hne : ds ≠ [])
    (hall : ∀ c ∈ ds, (hexDigitVal c).isSome = true) :
    ∃ n : Nat,
      hex_node_id_to_decimal (String.mk ('!' :: ds)) = some (Int.ofNat n) ∧
      hex_node_id_to_decimal (hexOfNodeId n) = some (Int.ofNat n) := by
  obtain ⟨c, rest, rfl⟩ := List.exists_cons_of_ne_nil hne
  refine ⟨valAux (c :: rest) 0, hex_node_id_digits c rest hall, ?_⟩
  obtain ⟨c2, rest2, h2⟩ := List.exists_cons_of_ne_nil
    (natToHexDigits_ne_nil (valAux (c :: rest) 0))
  unfold hexOfNodeId
  rw [h2, hex_node_id_digits c2 rest2 (by
    rw [← h2]; exact natToHexDigits_digits _), ← h2, valAux_natToHexDigits]

/-- C8 witness: the round trip at the concrete identifier `!aabbccdd`. -/
theorem c8_witness :
    ∃ n : Nat,
      hex_node_id_to_decimal
          (String.mk ('!' :: ['a', 'a', 'b', 'b', 'c', 'c', 'd', 'd'])) =
        some (Int.ofNat n) ∧
      hex_node_id_to_decimal (hexOfNodeId n) = some (Int.ofNat n) :=
  c8_hex_roundtrip ['a', 'a', 'b', 'b', 'c', 'c', 'd', 'd'] (by decide)
    (by decide)

/-! Lemmas about the handler. -/

theorem on_message_publishes_shape (cfg : Config) (t topic : String)
    (pl : LoadResult) :
    (on_message cfg t topic pl).publishes = [] ∨
    ∃ g sv,
      hex_node_id_to_decimal ((pySplit topic '/').getD 5 "") = some g ∧
      (on_message cfg t topic pl).publishes =
        [("msh/" ++ (pySplit topic '/').getD 1 "" ++ "/2/json/mqtt/",
          JVal.obj [("from", JVal.num g), ("type", JVal.str "sendtext"),
                    ("payload", JVal.str ("Current time: " ++ t)),
                    ("to", sv)])] := by
  unfold on_message
  repeat' split
  all_goals try exact Or.inl rfl
  exact Or.inr ⟨_, _, by assumption, rfl⟩

/-- C1: end-to-end scenario 1.  For the inbound message on topic
`msh/EU_868/2/json/LongFast/!aabbccdd` whose payload bytes are the UTF-8
JSON text decoding (via `json.loads`) to the object with fields
type = "text", payload = "hey !time please", from = 123456, the handler
performs exactly one publish, on topic `msh/EU_868/2/json/mqtt/`, whose JSON
payload is the object from = 2864434397, type = "sendtext",
payload = "Current time: " + t, to = 123456, where `t` is the clock output
(`current_time_str()`: the current moment formatted as
`YYYY-MM-DD HH:MM:SS` plus zone abbreviation in the configured timezone),
universally quantified here since the handler treats it opaquely. -/
theorem c1_scenario1_time_reply (t : String) :
    on_message defaultConfig t "msh/EU_868/2/json/LongFast/!aabbccdd"
      (LoadResult.value (JVal.obj [("type", JVal.str "text"),
        ("payload", JVal.str "hey !time please"),
        ("from", JVal.num 123456)])) =
    ⟨[("msh/EU_868/2/json/mqtt/",
       JVal.obj [("from", JVal.num 2864434397),
                 ("type", JVal.str "sendtext"),
                 ("payload", JVal.str ("Current time: " ++ t)),
                 ("to", JVal.num 123456)])], Exit.publishedOK⟩ := rfl

/-- C2: evaluation at the failing input.  The claim says every payload that
is not a well-formed JSON object — including valid JSON that is an array —
is dropped without publishing and without raising.  For the topic
`msh/EU_868/2/json/LongFast/!aabbccdd` with payload bytes `[]` (valid UTF-8
and well-formed JSON, but an array), `json.loads` succeeds, so the `except`
clause at line 112 does not fire, and `data.get("type", "")` at line 116 is
an attribute access on a `list`, raising an uncaught `AttributeError` that
escapes the callback (fatal to the processing loop under paho's default
`suppress_exceptions = False`).  The second conjunct records that the
undecodable-bytes half of the claim does hold in the code: a payload whose
bytes fail UTF-8 or JSON decoding is dropped with no publish and no
exception. -/
theorem c2_nonobject_json_raises :
    (on_message defaultConfig "T" "msh/EU_868/2/json/LongFast/!aabbccdd"
        (LoadResult.value (JVal.arr [])) = ⟨[], Exit.attrError⟩ ∧
      Exit.attrError.raisesException = true) ∧
    (on_message defaultConfig "T" "msh/EU_868/2/json/LongFast/!aabbccdd"
        LoadResult.decodeError = ⟨[], Exit.decodeFail⟩ ∧
      Exit.decodeFail.raisesException = false) :=
  ⟨⟨rfl, rfl⟩, ⟨rfl, rfl⟩⟩

/-- C3: loop prevention.  For every inbound message whose topic has at least
6 slash-delimited segments and whose fifth segment (the channel,
`parts[4]`) is exactly `mqtt`, the handler publishes nothing, for every
payload (`LoadResult` covers all payload byte strings: undecodable ones and
all decoded values): it returns at line 105. -/
theorem c3_mqtt_channel_never_publishes (cfg : Config) (t topic : String)
    (pl : LoadResult) (h6 : 6 ≤ (pySplit topic '/').length)
    (hch : (pySplit topic '/').getD 4 "" = "mqtt") :
    (on_message cfg t topic pl).publishes = [] ∧
    on_message cfg t topic pl = ⟨[], Exit.mqttChannel⟩ := by
  have h : ¬ (pySplit topic '/').length < 6 := by omega
  have e : on_message cfg t topic pl = ⟨[], Exit.mqttChannel⟩ := by
    unfold on_message
    rw [if_neg h, if_pos hch]
  exact ⟨by rw [e], e⟩

/-- C3 witness: end-to-end scenario 3, a trigger-containing payload arriving
on the reserved downlink channel. -/
theorem c3_witness :
    (on_message defaultConfig "T" "msh/US/2/json/mqtt/!aabbccdd"
      (LoadResult.value (JVal.obj [("type", JVal.str "text"),
        ("payload", JVal.str "!time"),
        ("from", JVal.num 1)]))).publishes = [] ∧
    on_message defaultConfig "T" "msh/US/2/json/mqtt/!aabbccdd"
      (LoadResult.value (JVal.obj [("type", JVal.str "text"),
        ("payload", JVal.str "!time"), ("from", JVal.num 1)])) =
      ⟨[], Exit.mqttChannel⟩ :=
  c3_mqtt_channel_never_publishes defaultConfig "T"
    "msh/US/2/json/mqtt/!aabbccdd"
    (LoadResult.value (JVal.obj [("type", JVal.str "text"),
      ("payload", JVal.str "!time"), ("from", JVal.num 1)]))
    (by decide) (by decide)

/-- C4: for every inbound message whose topic splits on `/` into fewer than
6 segments, the handler rejects it at line 96 and publishes nothing, for
every payload. -/
theorem c4_short_topic_rejected (cfg : Config) (t topic : String)
    (pl : LoadResult) (h : (pySplit topic '/').length < 6) :
    on_message cfg t topic pl = ⟨[], Exit.tooFewParts⟩ ∧
    (on_message cfg t topic pl).publishes = [] := by
  have e : on_message cfg t topic pl = ⟨[], Exit.tooFewParts⟩ := by
    unfold on_message
    rw [if_pos h]
  exact ⟨e, by rw [e]⟩

/-- C4 witness: a five-segment topic with a trigger-containing payload. -/
theorem c4_witness :
    on_message defaultConfig "T" "msh/EU_868/2/json/LongFast"
      (LoadResult.value (JVal.obj [("type", JVal.str "text"),
        ("payload", JVal.str "!time"), ("from", JVal.num 1)])) =
      ⟨[], Exit.tooFewParts⟩ ∧
    (on_message defaultConfig "T" "msh/EU_868/2/json/LongFast"
      (LoadResult.value (JVal.obj [("type", JVal.str "text"),
        ("payload", JVal.str "!time"),
        ("from", JVal.num 1)]))).publishes = [] :=
  c4_short_topic_rejected defaultConfig "T" "msh/EU_868/2/json/LongFast"
    (LoadResult.value (JVal.obj [("type", JVal.str "text"),
      ("payload", JVal.str "!time"), ("from", JVal.num 1)]))
    (by decide)

theorem on_message_trigger_iff (w b tz t p : String) (n : Int) :
    ((on_message ⟨w, b, tz⟩ t "msh/EU_868/2/json/LongFast/!aabbccdd"
        (LoadResult.value (JVal.obj [("type", JVal.str "text"),
          ("payload", JVal.str p), ("from", JVal.num n)]))).publishes ≠ [] ↔
      pyIn (pyLower w).data (pyLower p).data = true) := by
  have e : on_message ⟨w, b, tz⟩ t "msh/EU_868/2/json/LongFast/!aabbccdd"
      (LoadResult.value (JVal.obj [("type", JVal.str "text"),
        ("payload", JVal.str p), ("from", JVal.num n)])) =
      if pyIn (pyLower w).data (pyLower p).data then
        ⟨[("msh/EU_868/2/json/mqtt/",
           JVal.obj [("from", JVal.num 2864434397),
                     ("type", JVal.str "sendtext"),
                     ("payload", JVal.str ("Current time: " ++ t)),
                     ("to", JVal.num n)])], Exit.publishedOK⟩
      else ⟨[], Exit.noTrigger⟩ := rfl
  rw [e]
  by_cases hb : pyIn (pyLower w).data (pyLower p).data = true
  · rw [if_pos hb]
    simp [hb]
  · rw [if_neg hb]
    simp [hb]

/-- C5: trigger detection is a case-insensitive substring test.  With all
other gates of the pipeline satisfied (well-formed six-segment topic,
non-`mqtt` channel, text message with string payload `p`, integer sender),
the handler replies exactly when the ASCII-lowercasing of the configured
trigger word `w` (line 39 applies `.lower()` to the environment value)
occurs as a contiguous substring of the ASCII-lowercasing of `p`
(line 124: `TIME_TRIGGER not in payload.lower()`); in particular the payload
text "Please send !TIME now" with configured trigger "!time" is accepted. -/
theorem c5_trigger_case_insensitive (w b tz t p : String) (n : Int) :
    ((on_message ⟨w, b, tz⟩ t "msh/EU_868/2/json/LongFast/!aabbccdd"
        (LoadResult.value (JVal.obj [("type", JVal.str "text"),
          ("payload", JVal.str p), ("from", JVal.num n)]))).publishes ≠ [] ↔
      pyIn (pyLower w).data (pyLower p).data = true) ∧
    (on_message ⟨"!time", b, tz⟩ t "msh/EU_868/2/json/LongFast/!aabbccdd"
        (LoadResult.value (JVal.obj [("type", JVal.str "text"),
          ("payload", JVal.str "Please send !TIME now"),
          ("from", JVal.num n)]))).publishes ≠ [] :=
  ⟨on_message_trigger_iff w b tz t p n,
   (on_message_trigger_iff "!time" b tz t "Please send !TIME now" n).mpr
     (by decide)⟩

/-- C6: the reply's `from` field is the gateway identity from the topic, and
the outcome is independent of the `BOT_NODE_ID` override.  First conjunct:
for any two values of `BOT_NODE_ID` and the same message, clock and other
configuration, the entire outcome (published topic, payload and exit) is
identical — `on_message` never reads the override.  Second conjunct:
whenever a reply is published, its payload is the object whose `from` field
is exactly the value `hex_node_id_to_decimal` extracts from the topic's
sixth segment (`parts[5]`, the gateway hex identifier). -/
theorem c6_gateway_identity (w b1 b2 tz t topic : String) (pl : LoadResult) :
    on_message ⟨w, b1, tz⟩ t topic pl = on_message ⟨w, b2, tz⟩ t topic pl ∧
    ∀ tp pay, (on_message ⟨w, b1, tz⟩ t topic pl).publishes = [(tp, pay)] →
      ∃ g sv,
        hex_node_id_to_decimal ((pySplit topic '/').getD 5 "") = some g ∧
        pay = JVal.obj [("from", JVal.num g), ("type", JVal.str "sendtext"),
                        ("payload", JVal.str ("Current time: " ++ t)),
                        ("to", sv)] := by
  refine ⟨rfl, ?_⟩
  intro tp pay hp
  rcases on_message_publishes_shape ⟨w, b1, tz⟩ t topic pl with h | ⟨g, sv, hg, h⟩
  · rw [h] at hp
    cases hp
  · rw [h] at hp
    simp only [List.cons.injEq, Prod.mk.injEq, and_true] at hp
    exact ⟨g, sv, hg, hp.2.symm⟩

/-- C6 witness: the publish hypothesis discharged at the scenario-1 message,
with two different `BOT_NODE_ID` values implicit in the theorem applied. -/
theorem c6_witness :
    ∃ g sv,
      hex_node_id_to_decimal
        ((pySplit "msh/EU_868/2/json/LongFast/!aabbccdd" '/').getD 5 "") =
        some g ∧
      JVal.obj [("from", JVal.num 2864434397), ("type", JVal.str "sendtext"),
                ("payload", JVal.str ("Current time: " ++ "T")),
                ("to", JVal.num 123456)] =
        JVal.obj [("from", JVal.num g), ("type", JVal.str "sendtext"),
                  ("payload", JVal.str ("Current time: " ++ "T")),
                  ("to", sv)] :=
  (c6_gateway_identity "!time" "" "!cafebabe" "UTC" "T"
      "msh/EU_868/2/json/LongFast/!aabbccdd"
      (LoadResult.value (JVal.obj [("type", JVal.str "text"),
        ("payload", JVal.str "hey !time please"),
        ("from", JVal.num 123456)]))).2
    "msh/EU_868/2/json/mqtt/"
    (JVal.obj [("from", JVal.num 2864434397), ("type", JVal.str "sendtext"),
               ("payload", JVal.str ("Current time: " ++ "T")),
               ("to", JVal.num 123456)])
    rfl

/-- C7: malformed gateway identifier handling.  For every message that
reaches reply construction (≥ 6 topic segments, channel not `mqtt`, decoded
object with type "text" and string payload, trigger present, integer sender
present): if the sixth topic segment does not begin with `!`, the handler
returns at line 147 (warning logged) with no publish; if it begins with `!`
but the conversion `int(gateway_hex.lstrip("!"), 16)` fails, the `ValueError`
is caught at line 151 and the handler returns at line 153 (error logged)
with no publish.  In both cases the recorded exit is a plain return: no
exception escapes the handler. -/
theorem c7_bad_gateway_identifier (cfg : Config) (t topic p : String)
    (fields : List (String × JVal)) (n : Int)
    (h6 : ¬ (pySplit topic '/').length < 6)
    (hch : ¬ (pySplit topic '/').getD 4 "" = "mqtt")
    (hty : dictGetD fields "type" (JVal.str "") = JVal.str "text")
    (hpl : dictGetD fields "payload" (JVal.str "") = JVal.str p)
    (htr : pyIn (TIME_TRIGGER cfg).data (pyLower p).data = true)
    (hfr : getFromField fields = some (JVal.num n)) :
    (startsWithBang ((pySplit topic '/').getD 5 "") = false →
      on_message cfg t topic (LoadResult.value (JVal.obj fields)) =
        ⟨[], Exit.badGatewayFormat⟩) ∧
    (startsWithBang ((pySplit topic '/').getD 5 "") = true →
      hex_node_id_to_decimal ((pySplit topic '/').getD 5 "") = none →
      on_message cfg t topic (LoadResult.value (JVal.obj fields)) =
        ⟨[], Exit.badGatewayHex⟩) := by
  constructor
  · intro hb
    unfold on_message
    rw [if_neg h6, if_neg hch]
    simp only [hty, hpl, htr, hfr]
    simp only [List.getD_eq_getElem?_getD] at hb
    simp [hb, isIntLike]
  · intro hb hnone
    unfold on_message
    rw [if_neg h6, if_neg hch]
    simp only [hty, hpl, htr, hfr]
    simp only [List.getD_eq_getElem?_getD] at hb hnone
    simp [hb, hnone, isIntLike]

/-- C7 witness: both rejection branches at concrete messages — a gateway
segment `aabbccdd` without the `!` prefix, and `!zz` whose digits are not
hexadecimal. -/
theorem c7_witness :
    on_message defaultConfig "T" "msh/EU_868/2/json/LongFast/aabbccdd"
      (LoadResult.value (JVal.obj [("type", JVal.str "text"),
        ("payload", JVal.str "!time"), ("from", JVal.num 5)])) =
      ⟨[], Exit.badGatewayFormat⟩ ∧
    on_message defaultConfig "T" "msh/EU_868/2/json/LongFast/!zz"
      (LoadResult.value (JVal.obj [("type", JVal.str "text"),
        ("payload", JVal.str "!time"), ("from", JVal.num 5)])) =
      ⟨[], Exit.badGatewayHex⟩ :=
  ⟨(c7_bad_gateway_identifier defaultConfig "T"
      "msh/EU_868/2/json/LongFast/aabbccdd" "!time"
      [("type", JVal.str "text"), ("payload", JVal.str "!time"),
       ("from", JVal.num 5)] 5
      (by decide) (by decide) rfl rfl rfl rfl).1 rfl,
   (c7_bad_gateway_identifier defaultConfig "T"
      "msh/EU_868/2/json/LongFast/!zz" "!time"
      [("type", JVal.str "text"), ("payload", JVal.str "!time"),
       ("from", JVal.num 5)] 5
      (by decide) (by decide) rfl rfl rfl rfl).2 rfl rfl⟩

/-- C9: short-circuit order of the trigger-filter rejections
(lines 104-130: mqtt channel, then non-text type or non-string payload, then
trigger absence, then missing sender).  First conjunct: a text message with
string payload that lacks the trigger and also lacks the `from` key is
rejected at the trigger check (line 125, silent), not at the sender check —
the trigger test fires first.  Second conjunct: the warning-logged
sender-missing exit (line 130) happens only for messages that decoded to a
JSON object of type "text" with a string payload containing the trigger and
with no usable `from` value. -/
theorem c9_rejection_order (cfg : Config) (t topic : String)
    (fields : List (String × JVal)) (p : String)
    (h6 : ¬ (pySplit topic '/').length < 6)
    (hch : ¬ (pySplit topic '/').getD 4 "" = "mqtt")
    (hty : dictGetD fields "type" (JVal.str "") = JVal.str "text")
    (hpl : dictGetD fields "payload" (JVal.str "") = JVal.str p)
    (htr : pyIn (TIME_TRIGGER cfg).data (pyLower p).data = false)
    (_hfr : dictGet fields "from" = none) :
    on_message cfg t topic (LoadResult.value (JVal.obj fields)) =
      ⟨[], Exit.noTrigger⟩ ∧
    ∀ (topic2 : String) (pl2 : LoadResult),
      (on_message cfg t topic2 pl2).exit = Exit.missingFrom →
      ∃ fields2 p2, pl2 = LoadResult.value (JVal.obj fields2) ∧
        dictGetD fields2 "type" (JVal.str "") = JVal.str "text" ∧
        dictGetD fields2 "payload" (JVal.str "") = JVal.str p2 ∧
        pyIn (TIME_TRIGGER cfg).data (pyLower p2).data = true ∧
        getFromField fields2 = none := by
  constructor
  · unfold on_message
    rw [if_neg h6, if_neg hch]
    simp only [hty, hpl]
    simp [htr]
  · intro topic2 pl2 hex
    unfold on_message at hex
    repeat' split at hex
    all_goals first
      | (exfalso; simp at hex; done)
      | exact ⟨_, _, rfl, by assumption, by assumption, by assumption,
          by assumption⟩

/-- C9 witness: a text message lacking both trigger and `from` exits at the
trigger check; end-to-end scenario 4 (`{"type":"text","payload":"!time"}`,
no `from`) discharges the sender-missing implication. -/
theorem c9_witness :
    on_message defaultConfig "T" "msh/EU_868/2/json/LongFast/!aabbccdd"
      (LoadResult.value (JVal.obj [("type", JVal.str "text"),
        ("payload", JVal.str "hello there")])) = ⟨[], Exit.noTrigger⟩ ∧
    ∃ fields2 p2,
      LoadResult.value (JVal.obj [("type", JVal.str "text"),
        ("payload", JVal.str "!time")]) =
        LoadResult.value (JVal.obj fields2) ∧
      dictGetD fields2 "type" (JVal.str "") = JVal.str "text" ∧
      dictGetD fields2 "payload" (JVal.str "") = JVal.str p2 ∧
      pyIn (TIME_TRIGGER defaultConfig).data (pyLower p2).data = true ∧
      getFromField fields2 = none :=
  ⟨(c9_rejection_order defaultConfig "T"
      "msh/EU_868/2/json/LongFast/!aabbccdd"
      [("type", JVal.str "text"), ("payload", JVal.str "hello there")]
      "hello there" (by decide) (by decide) rfl rfl rfl rfl).1,
   (c9_rejection_order defaultConfig "T"
      "msh/EU_868/2/json/LongFast/!aabbccdd"
      [("type", JVal.str "text"), ("payload", JVal.str "hello there")]
      "hello there" (by decide) (by decide) rfl rfl rfl rfl).2
     "msh/EU_868/2/json/LongFast/!aabbccdd"
     (LoadResult.value (JVal.obj [("type", JVal.str "text"),
       ("payload", JVal.str "!time")])) rfl⟩

/-- C10: per-invocation publish invariant.  For every inbound message (any
topic string, any payload) one invocation of the handler performs at most
one `client.publish` call, and any publish it performs is on the topic
`"msh/" + region + "/2/json/mqtt/"` where `region` is the inbound topic's
second slash-delimited segment (`parts[1]`, line 99 and line 164). -/
theorem c10_at_most_one_publish (cfg : Config) (t topic : String)
    (pl : LoadResult) :
    (on_message cfg t topic pl).publishes.length ≤ 1 ∧
    ∀ e ∈ (on_message cfg t topic pl).publishes,
      e.1 = "msh/" ++ (pySplit topic '/').getD 1 "" ++ "/2/json/mqtt/" := by
  rcases on_message_publishes_shape cfg t topic pl with h | ⟨g, sv, hg, h⟩
  · rw [h]
    exact ⟨by simp, by simp⟩
  · rw [h]
    refine ⟨by simp, ?_⟩
    intro e he
    rw [List.mem_singleton] at he
    subst he
    rfl

/-- C10 witness: the invariant instantiated at the scenario-1 message, whose
single publish goes to `msh/EU_868/2/json/mqtt/`. -/
theorem c10_witness :
    ((on_message defaultConfig "T" "msh/EU_868/2/json/LongFast/!aabbccdd"
      (LoadResult.value (JVal.obj [("type", JVal.str "text"),
        ("payload", JVal.str "hey !time please"),
        ("from", JVal.num 123456)]))).publishes).length ≤ 1 ∧
    ("msh/EU_868/2/json/mqtt/",
     JVal.obj [("from", JVal.num 2864434397), ("type", JVal.str "sendtext"),
               ("payload", JVal.str ("Current time: " ++ "T")),
               ("to", JVal.num 123456)]).1 =
      "msh/" ++
        (pySplit "msh/EU_868/2/json/LongFast/!aabbccdd" '/').getD 1 "" ++
        "/2/json/mqtt/" :=
  ⟨(c10_at_most_one_publish defaultConfig "T"
      "msh/EU_868/2/json/LongFast/!aabbccdd"
      (LoadResult.value (JVal.obj [("type", JVal.str "text"),
        ("payload", JVal.str "hey !time please"),
        ("from", JVal.num 123456)]))).1,
   (c10_at_most_one_publish defaultConfig "T"
      "msh/EU_868/2/json/LongFast/!aabbccdd"
      (LoadResult.value (JVal.obj [("type", JVal.str "text"),
        ("payload", JVal.str "hey !time please"),
        ("from", JVal.num 123456)]))).2
     ("msh/EU_868/2/json/mqtt/",
      JVal.obj [("from", JVal.num 2864434397), ("type", JVal.str "sendtext"),
                ("payload", JVal.str ("Current time: " ++ "T")),
                ("to", JVal.num 123456)])
     (List.Mem.head _)⟩
